import Mathlib

/-!
# Verification of the authentication/session security core

A shallow embedding of the security core of the booking backend:
token-pair issuance (`generateTokenPair`), refresh-token rotation
(`rotateRefreshToken`), device-limit enforcement (`enforceDeviceLimit`),
the fixed-window rate limiter (`checkRateLimit`) and the OTP engine
(`sendOTP`, `verifyOTP`).

Modelling conventions:
* Timestamps are `Nat` milliseconds, as returned by the JS `Date.now()`.
* Opaque strings (ids, secrets, fingerprints, phone numbers) are `Nat`.
* The SHA-256 digests `hashToken`/`hashOTP` are modelled as injective
  maps, concretely the identity on `Nat`.
* The database tables are lists of records; `findFirst` is `List.find?`,
  `update ... where` is `List.map` with a conditional rewrite, `insert`
  appends.
* Each source of randomness (`generateId`, `generateJti`,
  `generateSecureToken`, `generateTokenFamily`) is an explicit input of
  the operation that draws it.
* The signed JWT is modelled by its claims record; a claim that the
  source payload does not set is `Option.none`.
-/

/-- Milliseconds since the epoch, as in the JS `Date.now()`. -/
abbrev Millis := Nat

/-- `ACCESS_TOKEN_EXPIRY = '15m'`, in milliseconds. -/
def ACCESS_TOKEN_EXPIRY_MS : Nat := 15 * 60 * 1000

/-- `REFRESH_TOKEN_EXPIRY_DAYS = 30`. -/
def REFRESH_TOKEN_EXPIRY_DAYS : Nat := 30

/-- `MAX_REFRESH_COUNT = 1000`. -/
def MAX_REFRESH_COUNT : Nat := 1000

/-- `MIN_REFRESH_INTERVAL = 60000` (one minute). -/
def MIN_REFRESH_INTERVAL : Nat := 60000

/-- The `refresh_tokens` table row (schema.ts `refreshTokens`). -/
structure RefreshTokenRecord where
  id : Nat
  tokenHash : Nat
  userId : Option Nat
  superuserId : Option Nat
  tokenFamily : Nat
  expiresAt : Millis
  revoked : Bool
  revokedAt : Option Millis
  rotatedAt : Option Millis
  newTokenId : Option Nat
  deviceFingerprint : Nat
  ipAddress : Nat
  userAgent : Option Nat
  createdAt : Millis
deriving Repr, DecidableEq

/-- The `sessions` table row (schema.ts `sessions`). -/
structure Session where
  id : Nat
  userId : Option Nat
  superuserId : Option Nat
  tokenFamily : Nat
  deviceFingerprint : Nat
  ipAddress : Nat
  userAgent : Option Nat
  lastActivity : Millis
  sessionStarted : Millis
  refreshCount : Nat
  isActive : Bool
  revoked : Bool
  createdAt : Millis
deriving Repr, DecidableEq

/-- The state the token engine reads and writes: the `refresh_tokens`
and `sessions` tables. -/
structure TokenStore where
  refreshTokens : List RefreshTokenRecord
  sessions : List Session
deriving Repr, DecidableEq

/-- The `type` discriminator in the JWT payload: `'user' | 'superuser'`. -/
inductive AccountType where
  | user
  | superuser
deriving Repr, DecidableEq

/-- The claims of a signed access token.  `sessionId` is `none` when the
payload the source signs has no `sessionId` field; `iat`/`exp` are the
claims `jwt.sign` adds, with `exp = iat + ACCESS_TOKEN_EXPIRY_MS`. -/
structure AccessTokenClaims where
  userId : Option Nat
  superuserId : Option Nat
  type : AccountType
  jti : Nat
  sessionId : Option Nat
  iat : Millis
  exp : Millis
deriving Repr, DecidableEq

/-- The `TokenPair` interface returned to callers. -/
structure TokenPair where
  accessToken : AccessTokenClaims
  refreshToken : Nat
  expiresIn : Nat
deriving Repr, DecidableEq

/-- `TokenPair | { error: string }`, the result of `rotateRefreshToken`. -/
inductive RotateOutcome where
  | ok (pair : TokenPair)
  | err (msg : String)
deriving Repr, DecidableEq

/-- The `DeviceInfo` interface. -/
structure DeviceInfo where
  fingerprint : Nat
  ipAddress : Nat
  userAgent : Option Nat
deriving Repr, DecidableEq

/-- `hashToken` (SHA-256 in `security.ts`), modelled as an injective
digest: the identity on `Nat`. -/
def hashToken (token : Nat) : Nat := token

/-- The random values `rotateRefreshToken` draws: `generateJti()`,
`generateId('rt')` and `generateSecureToken()` for the successor. -/
structure RotateFresh where
  jti : Nat
  newTokenId : Nat
  newSecret : Nat
deriving Repr, DecidableEq

/-- `tx.query.refreshTokens.findFirst(where eq(tokenHash, h))`. -/
def findByTokenHash (l : List RefreshTokenRecord) (h : Nat) :
    Option RefreshTokenRecord :=
  l.find? fun r => r.tokenHash == h

/-- `tx.query.refreshTokens.findFirst(where eq(id, i))`. -/
def findById (l : List RefreshTokenRecord) (i : Nat) :
    Option RefreshTokenRecord :=
  l.find? fun r => r.id == i

/-- `tx.query.sessions.findFirst(where eq(tokenFamily, fam))`. -/
def findSessionByFamily (l : List Session) (fam : Nat) : Option Session :=
  l.find? fun s => s.tokenFamily == fam

/-- `update refreshTokens set {revoked: true, revokedAt: now}
where eq(tokenFamily, fam)`. -/
def familyRevokeTokens (fam : Nat) (now : Millis)
    (l : List RefreshTokenRecord) : List RefreshTokenRecord :=
  l.map fun r =>
    if r.tokenFamily == fam then
      { r with revoked := true, revokedAt := some now }
    else r

/-- `update sessions set {revoked: true, isActive: false}
where eq(tokenFamily, fam)`. -/
def familyRevokeSessions (fam : Nat) (l : List Session) : List Session :=
  l.map fun s =>
    if s.tokenFamily == fam then
      { s with revoked := true, isActive := false }
    else s

/-- The tail of `rotateRefreshToken` after the already-rotated (grace)
block falls through: session lookup, frequency/age/count checks, device
fingerprint check, and the successful rotation writes. -/
def rotateAfterGrace (store : TokenStore) (now : Millis)
    (fresh : RotateFresh) (tokenRecord : RefreshTokenRecord)
    (deviceInfo : DeviceInfo) : RotateOutcome × TokenStore :=
  match findSessionByFamily store.sessions tokenRecord.tokenFamily with
  | none => (.err "Session not found", store)
  | some session =>
    if now - session.lastActivity < MIN_REFRESH_INTERVAL then
      (.err "Token refreshed too frequently", store)
    else if now - session.sessionStarted >
        REFRESH_TOKEN_EXPIRY_DAYS * 24 * 60 * 60 * 1000 then
      (.err "Session expired. Please login again.", store)
    else if session.refreshCount > MAX_REFRESH_COUNT then
      (.err "Session requires re-authentication", store)
    else if tokenRecord.deviceFingerprint != deviceInfo.fingerprint then
      -- the source revokes the family's refresh tokens here but issues
      -- no update to the sessions table
      (.err "Device fingerprint mismatch",
        { store with
            refreshTokens :=
              familyRevokeTokens tokenRecord.tokenFamily now
                store.refreshTokens })
    else
      let newRecord : RefreshTokenRecord := {
        id := fresh.newTokenId
        tokenHash := hashToken fresh.newSecret
        userId := tokenRecord.userId
        superuserId := tokenRecord.superuserId
        tokenFamily := tokenRecord.tokenFamily
        expiresAt := now + REFRESH_TOKEN_EXPIRY_DAYS * 24 * 60 * 60 * 1000
        revoked := false
        revokedAt := none
        rotatedAt := none
        newTokenId := none
        deviceFingerprint := deviceInfo.fingerprint
        ipAddress := deviceInfo.ipAddress
        userAgent := deviceInfo.userAgent
        createdAt := now }
      (.ok {
          accessToken := {
            userId := tokenRecord.userId
            superuserId := tokenRecord.superuserId
            type := if tokenRecord.superuserId.isSome then
                AccountType.superuser else AccountType.user
            jti := fresh.jti
            sessionId := none
            iat := now
            exp := now + ACCESS_TOKEN_EXPIRY_MS }
          refreshToken := fresh.newSecret
          expiresIn := 15 * 60 },
        { refreshTokens :=
            (store.refreshTokens.map fun r =>
              if r.id == tokenRecord.id then
                { r with rotatedAt := some now,
                         newTokenId := some fresh.newTokenId }
              else r) ++ [newRecord]
          sessions := store.sessions.map fun s =>
            if s.id == session.id then
              { s with lastActivity := now,
                       refreshCount := session.refreshCount + 1 }
            else s })

/-- `rotateRefreshToken(oldRefreshToken, deviceInfo)`: lookup by digest,
theft handling of revoked records, expiry check, grace-window handling
of just-rotated records, then `rotateAfterGrace`. -/
def rotateRefreshToken (store : TokenStore) (now : Millis)
    (fresh : RotateFresh) (oldRefreshToken : Nat)
    (deviceInfo : DeviceInfo) : RotateOutcome × TokenStore :=
  match findByTokenHash store.refreshTokens (hashToken oldRefreshToken) with
  | none => (.err "Invalid refresh token", store)
  | some tokenRecord =>
    if tokenRecord.revoked then
      (.err "Token has been revoked",
        { refreshTokens :=
            familyRevokeTokens tokenRecord.tokenFamily now
              store.refreshTokens
          sessions :=
            familyRevokeSessions tokenRecord.tokenFamily store.sessions })
    else if now > tokenRecord.expiresAt then
      (.err "Refresh token expired. Please login again.", store)
    else
      match tokenRecord.rotatedAt, tokenRecord.newTokenId with
      | some rotatedAt, some newTokenId =>
        if now - rotatedAt < 10000 then
          match findById store.refreshTokens newTokenId with
          | some newTokenRecord =>
            if newTokenRecord.revoked then
              rotateAfterGrace store now fresh tokenRecord deviceInfo
            else
              (.ok {
                  accessToken := {
                    userId := newTokenRecord.userId
                    superuserId := newTokenRecord.superuserId
                    type := if newTokenRecord.superuserId.isSome then
                        AccountType.superuser else AccountType.user
                    jti := fresh.jti
                    sessionId := none
                    iat := now
                    exp := now + ACCESS_TOKEN_EXPIRY_MS }
                  refreshToken := oldRefreshToken
                  expiresIn := 15 * 60 },
                store)
          | none => rotateAfterGrace store now fresh tokenRecord deviceInfo
        else rotateAfterGrace store now fresh tokenRecord deviceInfo
      | _, _ => rotateAfterGrace store now fresh tokenRecord deviceInfo

/-- The random values `generateTokenPair` draws: `generateTokenFamily()`
(used only when no family is passed), `generateId('session')`,
`generateJti()`, `generateSecureToken()` and `generateId('rt')`. -/
structure IssueFresh where
  family : Nat
  sessionId : Nat
  jti : Nat
  refreshSecret : Nat
  refreshTokenId : Nat
deriving Repr, DecidableEq

/-- `generateTokenPair(userId, superuserId, deviceInfo, tokenFamily?)`:
signs an access token (payload with `sessionId`), stores the digest of a
fresh refresh secret, and upserts the session row (insert, or touch
`lastActivity` when a row with the same `tokenFamily` exists). -/
def generateTokenPair (store : TokenStore) (now : Millis)
    (fresh : IssueFresh) (userId superuserId : Option Nat)
    (deviceInfo : DeviceInfo) (tokenFamily : Option Nat) :
    TokenPair × TokenStore :=
  let family := tokenFamily.getD fresh.family
  let accessToken : AccessTokenClaims := {
    userId := userId
    superuserId := superuserId
    type := if superuserId.isSome then AccountType.superuser
      else AccountType.user
    jti := fresh.jti
    sessionId := some fresh.sessionId
    iat := now
    exp := now + ACCESS_TOKEN_EXPIRY_MS }
  let newRecord : RefreshTokenRecord := {
    id := fresh.refreshTokenId
    tokenHash := hashToken fresh.refreshSecret
    userId := userId
    superuserId := superuserId
    tokenFamily := family
    expiresAt := now + REFRESH_TOKEN_EXPIRY_DAYS * 24 * 60 * 60 * 1000
    revoked := false
    revokedAt := none
    rotatedAt := none
    newTokenId := none
    deviceFingerprint := deviceInfo.fingerprint
    ipAddress := deviceInfo.ipAddress
    userAgent := deviceInfo.userAgent
    createdAt := now }
  let sessions1 :=
    if store.sessions.any fun s => s.tokenFamily == family then
      -- onConflictDoUpdate on the unique `tokenFamily`: touch lastActivity
      store.sessions.map fun s =>
        if s.tokenFamily == family then { s with lastActivity := now }
        else s
    else
      store.sessions ++ [{
        id := fresh.sessionId
        userId := userId
        superuserId := superuserId
        tokenFamily := family
        deviceFingerprint := deviceInfo.fingerprint
        ipAddress := deviceInfo.ipAddress
        userAgent := deviceInfo.userAgent
        lastActivity := now
        sessionStarted := now
        refreshCount := 0
        isActive := true
        revoked := false
        createdAt := now }]
  ({ accessToken := accessToken
     refreshToken := fresh.refreshSecret
     expiresIn := 15 * 60 },
   { refreshTokens := store.refreshTokens ++ [newRecord]
     sessions := sessions1 })

/-- The filter the session query of `enforceDeviceLimit` applies for the
account: by `userId` when present (`accountType === 'user'`), otherwise
by `superuserId`. -/
def accountSessionFilter (userId superuserId : Option Nat)
    (s : Session) : Bool :=
  match userId with
  | some uid => s.userId == some uid
  | none => s.superuserId == superuserId

/-- Insert into a list sorted by ascending `createdAt`. -/
def insertByCreatedAt (x : Session) : List Session → List Session
  | [] => [x]
  | y :: ys =>
    if x.createdAt ≤ y.createdAt then x :: y :: ys
    else y :: insertByCreatedAt x ys

/-- The `orderBy asc(sessions.createdAt)` of the session query,
modelled as insertion sort. -/
def sortByCreatedAt : List Session → List Session
  | [] => []
  | x :: xs => insertByCreatedAt x (sortByCreatedAt xs)

/-- `enforceDeviceLimit(userId, superuserId, maxDevices)`: lists the
account's active sessions ordered by `createdAt` ascending; at or above
the limit, revokes the first (oldest) one and the refresh tokens of its
family. -/
def enforceDeviceLimit (store : TokenStore) (now : Millis)
    (userId superuserId : Option Nat) (maxDevices : Nat) : TokenStore :=
  if userId = none ∧ superuserId = none then store
  else
    let activeSessions := sortByCreatedAt
      (store.sessions.filter fun s =>
        accountSessionFilter userId superuserId s && s.isActive)
    if activeSessions.length ≥ maxDevices then
      match activeSessions with
      | [] => store
      | oldest :: _ =>
        { refreshTokens :=
            familyRevokeTokens oldest.tokenFamily now store.refreshTokens
          sessions := store.sessions.map fun s =>
            if s.id == oldest.id then
              { s with revoked := true, isActive := false }
            else s }
    else store

/-- A `(windowMs, maxRequests)` entry of `RATE_LIMIT_CONFIGS`. -/
structure RateLimitConfig where
  windowMs : Nat
  maxRequests : Nat
deriving Repr, DecidableEq

/-- The `RATE_LIMIT_CONFIGS` table. -/
def RATE_LIMIT_CONFIGS (endpoint : String) : Option RateLimitConfig :=
  if endpoint == "auth:send-otp" then some ⟨60 * 1000, 3⟩
  else if endpoint == "auth:verify-otp" then some ⟨60 * 1000, 5⟩
  else if endpoint == "auth:login" then some ⟨15 * 60 * 1000, 10⟩
  else if endpoint == "auth:refresh" then some ⟨60 * 1000, 20⟩
  else if endpoint == "api:general" then some ⟨60 * 1000, 100⟩
  else if endpoint == "appointment:create" then some ⟨60 * 1000, 5⟩
  else none

/-- The `rate_limits` table row (schema.ts `rateLimits`). -/
structure RateLimitRecord where
  id : Nat
  identifier : Nat
  endpoint : String
  requestCount : Nat
  windowStart : Millis
  lastRequest : Millis
deriving Repr, DecidableEq

/-- The `RateLimitResult` interface. -/
structure RateLimitResult where
  allowed : Bool
  remainingRequests : Option Nat
  resetTime : Option Millis
deriving Repr, DecidableEq

/-- `db.query.rateLimits.findFirst(where identifier ∧ endpoint ∧
gt(windowStart, lowerBound))`. -/
def findActiveWindow (l : List RateLimitRecord) (identifier : Nat)
    (endpoint : String) (lowerBound : Millis) : Option RateLimitRecord :=
  l.find? fun r =>
    r.identifier == identifier && r.endpoint == endpoint &&
      decide (r.windowStart > lowerBound)

/-- `checkRateLimit(identifier, endpoint)`: fixed-window counter.  The
configured `(windowMs, maxRequests)` falls back to the `api:general`
entry `(60000, 100)` for unconfigured endpoints.  `freshId` is the
`generateId('rl')` drawn when a new record is inserted. -/
def checkRateLimit (records : List RateLimitRecord) (now : Millis)
    (freshId : Nat) (identifier : Nat) (endpoint : String) :
    RateLimitResult × List RateLimitRecord :=
  let config := (RATE_LIMIT_CONFIGS endpoint).getD ⟨60 * 1000, 100⟩
  match findActiveWindow records identifier endpoint
      (now - config.windowMs) with
  | some existing =>
    if existing.requestCount ≥ config.maxRequests then
      ({ allowed := false
         remainingRequests := some 0
         resetTime := some (existing.windowStart + config.windowMs) },
       records)
    else
      ({ allowed := true
         remainingRequests :=
           some (config.maxRequests - existing.requestCount - 1)
         resetTime := some (existing.windowStart + config.windowMs) },
       records.map fun r =>
         if r.id == existing.id then
           { r with requestCount := existing.requestCount + 1,
                    lastRequest := now }
         else r)
  | none =>
    ({ allowed := true
       remainingRequests := some (config.maxRequests - 1)
       resetTime := some (now + config.windowMs) },
     records ++ [{
       id := freshId
       identifier := identifier
       endpoint := endpoint
       requestCount := 1
       windowStart := now
       lastRequest := now }])

/-- The `otps` table row (schema.ts `otps`). -/
structure OtpRecord where
  id : Nat
  phoneNumber : Nat
  otpHash : Nat
  expiresAt : Millis
  used : Bool
  usedAt : Option Millis
  usedByFingerprint : Option Nat
  attemptCount : Nat
  createdAt : Millis
deriving Repr, DecidableEq

/-- `hashOTP` (SHA-256 in `security.ts`), modelled as an injective
digest: the identity on `Nat`. -/
def hashOTP (otp : Nat) : Nat := otp

/-- The `SendOTPResult` interface. -/
structure SendOTPResult where
  success : Bool
  waitTime : Option Nat
  message : String
  otpId : Option Nat
deriving Repr, DecidableEq

/-- `db.query.otps.findFirst(where phoneNumber ∧ gt(createdAt, cutoff)
∧ used = false)`, the cooldown query of `sendOTP`. -/
def findRecentUnused (l : List OtpRecord) (phone : Nat)
    (cutoff : Millis) : Option OtpRecord :=
  l.find? fun o =>
    o.phoneNumber == phone && decide (o.createdAt > cutoff) &&
      o.used == false

/-- `sendOTP(phoneNumber)`: cooldown check, then the outbound SMS call
raced against its 10-second timer, and the OTP row is inserted only
after that call succeeds.  `smsDelivered` is the outcome of the
`Promise.race` (false covers both delivery failure and timeout);
`freshOtp` is `generateOTP(6)` and `freshId` is `generateId('otp')`.
Phone numbers are taken already normalized. -/
def sendOTP (otps : List OtpRecord) (now : Millis)
    (freshOtp freshId : Nat) (smsDelivered : Bool) (phoneNumber : Nat) :
    SendOTPResult × List OtpRecord :=
  match findRecentUnused otps phoneNumber (now - 60000) with
  | some recentOTP =>
    ({ success := false
       waitTime := some (60 - (now - recentOTP.createdAt) / 1000)
       message :=
         "OTP already sent. Check your SMS or wait before requesting again."
       otpId := none },
     otps)
  | none =>
    if smsDelivered then
      ({ success := true
         waitTime := none
         message := "OTP sent successfully"
         otpId := some freshId },
       otps ++ [{
         id := freshId
         phoneNumber := phoneNumber
         otpHash := hashOTP freshOtp
         expiresAt := now + 10 * 60 * 1000
         used := false
         usedAt := none
         usedByFingerprint := none
         attemptCount := 0
         createdAt := now }])
    else
      ({ success := false
         waitTime := none
         message := "Failed to send SMS. Please try again."
         otpId := none },
       otps)

/-- The `VerifyOTPResult` interface. -/
structure VerifyOTPResult where
  success : Bool
  message : String
  phoneNumber : Option Nat
deriving Repr, DecidableEq

/-- `tx.query.otps.findFirst(where phoneNumber ∧ otpHash ∧
used = false)`, the lookup of `verifyOTP`. -/
def findUnusedByHash (l : List OtpRecord) (phone hash : Nat) :
    Option OtpRecord :=
  l.find? fun o =>
    o.phoneNumber == phone && o.otpHash == hash && o.used == false

/-- `verifyOTP(phoneNumber, otp, fingerprint)`: one transaction that
looks up the unused record by code digest, checks expiry and the
attempt ceiling, and marks the record used on success.  The source's
`attempt_count` increment lives in the `catch` handler and runs only
when the transaction throws, so it does not appear in this
exception-free model. -/
def verifyOTP (otps : List OtpRecord) (now : Millis)
    (phoneNumber otp fingerprint : Nat) :
    VerifyOTPResult × List OtpRecord :=
  match findUnusedByHash otps phoneNumber (hashOTP otp) with
  | none =>
    ({ success := false
       message := "Invalid or already used OTP"
       phoneNumber := none },
     otps)
  | some otpRecord =>
    if now > otpRecord.expiresAt then
      ({ success := false
         message := "OTP has expired. Please request a new one."
         phoneNumber := none },
       otps)
    else if otpRecord.attemptCount ≥ 5 then
      ({ success := false
         message := "Too many failed attempts. Please request a new OTP."
         phoneNumber := none },
       otps)
    else
      ({ success := true
         message := "OTP verified successfully"
         phoneNumber := some phoneNumber },
       otps.map fun o =>
         if o.id == otpRecord.id then
           { o with used := true, usedAt := some now,
                    usedByFingerprint := some fingerprint }
         else o)

/-! ## Derived notions used by the specification's invariants -/

/-- A record that is neither revoked nor rotated — "active" in the
spec's sense. -/
def isActiveRecord (r : RefreshTokenRecord) : Bool :=
  !r.revoked && r.rotatedAt == none

/-- Membership of the active records of family `fam`. -/
def activeInFamily (fam : Nat) (r : RefreshTokenRecord) : Bool :=
  r.tokenFamily == fam && isActiveRecord r

/-- The ids of the revoked refresh-token records of a store. -/
def revokedTokenIds (s : TokenStore) : List Nat :=
  (s.refreshTokens.filter fun r => r.revoked).map fun r => r.id

/-- The ids of the revoked sessions of a store. -/
def revokedSessionIds (s : TokenStore) : List Nat :=
  (s.sessions.filter fun x => x.revoked).map fun x => x.id

/-! ## Generic list lemmas -/

/-- Mapping a function that changes neither the filtering predicate nor
the projected field leaves a filtered projection unchanged. -/
theorem filter_map_of_pres {α β : Type} (p : α → Bool) (g : α → β)
    (f : α → α) (hp : ∀ a, p (f a) = p a) (hg : ∀ a, g (f a) = g a) :
    ∀ l : List α, ((l.map f).filter p).map g = (l.filter p).map g := by
  intro l
  induction l with
  | nil => rfl
  | cons a t ih =>
    simp only [List.map_cons, List.filter_cons, hp a]
    cases h : p a
    · simpa [h] using ih
    · simp [h, hg a, ih]

/-- A mapped list filters to nothing when no image satisfies the
predicate. -/
theorem filter_map_eq_nil {α : Type} (p : α → Bool) (f : α → α)
    (l : List α) (h : ∀ a ∈ l, p (f a) = false) :
    (l.map f).filter p = [] := by
  induction l with
  | nil => rfl
  | cons a t ih =>
    simp only [List.map_cons, List.filter_cons, h a (List.mem_cons_self a t)]
    exact ih fun x hx => h x (List.mem_cons_of_mem a hx)

/-! ## Facts about the family-wide revocation updates -/

/-- After `familyRevokeTokens fam`, every record of family `fam` is
revoked. -/
theorem familyRevokeTokens_mem (fam : Nat) (now : Millis)
    (l : List RefreshTokenRecord) :
    ∀ r ∈ familyRevokeTokens fam now l, r.tokenFamily = fam →
      r.revoked = true := by
  intro r hr hfam
  unfold familyRevokeTokens at hr
  rcases List.mem_map.mp hr with ⟨a, _, rfl⟩
  by_cases h : a.tokenFamily == fam
  · simp [h]
  · simp only [if_neg h] at hfam
    exact absurd hfam (by simpa using h)

/-- After `familyRevokeSessions fam`, every session of family `fam` is
revoked and inactive. -/
theorem familyRevokeSessions_mem (fam : Nat) (l : List Session) :
    ∀ s ∈ familyRevokeSessions fam l, s.tokenFamily = fam →
      s.revoked = true ∧ s.isActive = false := by
  intro s hs hfam
  unfold familyRevokeSessions at hs
  rcases List.mem_map.mp hs with ⟨a, _, rfl⟩
  by_cases h : a.tokenFamily == fam
  · simp [h]
  · simp only [if_neg h] at hfam
    exact absurd hfam (by simpa using h)

/-! ## Path lemmas for `rotateRefreshToken` -/

/-- The grace-window branch: a record already rotated less than 10
seconds ago whose successor exists and is not revoked is answered with
the caller's own secret and an access token carrying the successor's
identity, and the store is left untouched. -/
theorem rotate_grace_eq (store : TokenStore) (now : Millis)
    (fresh : RotateFresh) (old : Nat) (d : DeviceInfo)
    (rec succ : RefreshTokenRecord) (rt nid : Nat)
    (hfind : findByTokenHash store.refreshTokens (hashToken old) = some rec)
    (hrev : rec.revoked = false)
    (hexp : ¬ now > rec.expiresAt)
    (hrot : rec.rotatedAt = some rt)
    (hnid : rec.newTokenId = some nid)
    (hgrace : now - rt < 10000)
    (hsucc : findById store.refreshTokens nid = some succ)
    (hsrev : succ.revoked = false) :
    rotateRefreshToken store now fresh old d =
      (.ok {
          accessToken := {
            userId := succ.userId
            superuserId := succ.superuserId
            type := if succ.superuserId.isSome then AccountType.superuser
              else AccountType.user
            jti := fresh.jti
            sessionId := none
            iat := now
            exp := now + ACCESS_TOKEN_EXPIRY_MS }
          refreshToken := old
          expiresIn := 15 * 60 },
        store) := by
  unfold rotateRefreshToken
  rw [hfind]
  simp [hrev, hexp, hrot, hnid, hgrace, hsucc, hsrev]

/-- When the presented record is rotated but the grace window has
elapsed, `rotateRefreshToken` falls through to the normal rotation
path. -/
theorem rotate_fallthrough_postgrace (store : TokenStore) (now : Millis)
    (fresh : RotateFresh) (old : Nat) (d : DeviceInfo)
    (rec : RefreshTokenRecord) (rt nid : Nat)
    (hfind : findByTokenHash store.refreshTokens (hashToken old) = some rec)
    (hrev : rec.revoked = false)
    (hexp : ¬ now > rec.expiresAt)
    (hrot : rec.rotatedAt = some rt)
    (hnid : rec.newTokenId = some nid)
    (hlate : ¬ now - rt < 10000) :
    rotateRefreshToken store now fresh old d =
      rotateAfterGrace store now fresh rec d := by
  unfold rotateRefreshToken
  rw [hfind]
  simp [hrev, hexp, hrot, hnid, hlate]

/-- A never-rotated record skips the grace block entirely. -/
theorem rotate_fallthrough_unrotated (store : TokenStore) (now : Millis)
    (fresh : RotateFresh) (old : Nat) (d : DeviceInfo)
    (rec : RefreshTokenRecord)
    (hfind : findByTokenHash store.refreshTokens (hashToken old) = some rec)
    (hrev : rec.revoked = false)
    (hexp : ¬ now > rec.expiresAt)
    (hrot : rec.rotatedAt = none) :
    rotateRefreshToken store now fresh old d =
      rotateAfterGrace store now fresh rec d := by
  unfold rotateRefreshToken
  rw [hfind]
  simp [hrev, hexp, hrot]

/-- The fingerprint-mismatch branch: the family's refresh tokens are
revoked, `DeviceMismatch` is returned, and the sessions table is left
untouched. -/
theorem rotateAfterGrace_mismatch_eq (store : TokenStore) (now : Millis)
    (fresh : RotateFresh) (rec : RefreshTokenRecord) (d : DeviceInfo)
    (session : Session)
    (hsess : findSessionByFamily store.sessions rec.tokenFamily =
      some session)
    (hfreq : ¬ now - session.lastActivity < MIN_REFRESH_INTERVAL)
    (hage : ¬ now - session.sessionStarted >
      REFRESH_TOKEN_EXPIRY_DAYS * 24 * 60 * 60 * 1000)
    (hcount : ¬ session.refreshCount > MAX_REFRESH_COUNT)
    (hfp : rec.deviceFingerprint ≠ d.fingerprint) :
    rotateAfterGrace store now fresh rec d =
      (.err "Device fingerprint mismatch",
        { store with
            refreshTokens :=
              familyRevokeTokens rec.tokenFamily now store.refreshTokens }) := by
  unfold rotateAfterGrace
  rw [hsess]
  simp [hfreq, hage, hcount, hfp]

/-- The successful rotation branch, spelled out: the new record is
inserted, the old record gets `rotatedAt`/`newTokenId`, the session is
touched, and the new pair is returned. -/
theorem rotateAfterGrace_success_eq (store : TokenStore) (now : Millis)
    (fresh : RotateFresh) (rec : RefreshTokenRecord) (d : DeviceInfo)
    (session : Session)
    (hsess : findSessionByFamily store.sessions rec.tokenFamily =
      some session)
    (hfreq : ¬ now - session.lastActivity < MIN_REFRESH_INTERVAL)
    (hage : ¬ now - session.sessionStarted >
      REFRESH_TOKEN_EXPIRY_DAYS * 24 * 60 * 60 * 1000)
    (hcount : ¬ session.refreshCount > MAX_REFRESH_COUNT)
    (hfp : rec.deviceFingerprint = d.fingerprint) :
    rotateAfterGrace store now fresh rec d =
      (.ok {
          accessToken := {
            userId := rec.userId
            superuserId := rec.superuserId
            type := if rec.superuserId.isSome then AccountType.superuser
              else AccountType.user
            jti := fresh.jti
            sessionId := none
            iat := now
            exp := now + ACCESS_TOKEN_EXPIRY_MS }
          refreshToken := fresh.newSecret
          expiresIn := 15 * 60 },
        { refreshTokens :=
            (store.refreshTokens.map fun r =>
              if r.id == rec.id then
                { r with rotatedAt := some now,
                         newTokenId := some fresh.newTokenId }
              else r) ++ [{
            id := fresh.newTokenId
            tokenHash := hashToken fresh.newSecret
            userId := rec.userId
            superuserId := rec.superuserId
            tokenFamily := rec.tokenFamily
            expiresAt := now + REFRESH_TOKEN_EXPIRY_DAYS * 24 * 60 * 60 * 1000
            revoked := false
            revokedAt := none
            rotatedAt := none
            newTokenId := none
            deviceFingerprint := d.fingerprint
            ipAddress := d.ipAddress
            userAgent := d.userAgent
            createdAt := now }]
          sessions := store.sessions.map fun s =>
            if s.id == session.id then
              { s with lastActivity := now,
                       refreshCount := session.refreshCount + 1 }
            else s }) := by
  unfold rotateAfterGrace
  rw [hsess]
  simp [hfreq, hage, hcount, hfp]

/-- With a matching fingerprint, the post-grace path never revokes a
token record or a session: every branch either leaves the store
untouched or performs the successful-rotation writes, which preserve
every `revoked` flag. -/
theorem rotateAfterGrace_preserves_revoked (store : TokenStore)
    (now : Millis) (fresh : RotateFresh) (rec : RefreshTokenRecord)
    (d : DeviceInfo) (hfp : rec.deviceFingerprint = d.fingerprint) :
    revokedTokenIds (rotateAfterGrace store now fresh rec d).2 =
      revokedTokenIds store ∧
    revokedSessionIds (rotateAfterGrace store now fresh rec d).2 =
      revokedSessionIds store := by
  cases hsess : findSessionByFamily store.sessions rec.tokenFamily with
  | none =>
    unfold rotateAfterGrace
    rw [hsess]
    exact ⟨rfl, rfl⟩
  | some session =>
    by_cases hfreq : now - session.lastActivity < MIN_REFRESH_INTERVAL
    · unfold rotateAfterGrace
      rw [hsess]
      simp [hfreq]
    · by_cases hage : now - session.sessionStarted >
        REFRESH_TOKEN_EXPIRY_DAYS * 24 * 60 * 60 * 1000
      · unfold rotateAfterGrace
        rw [hsess]
        simp [hfreq, hage]
      · by_cases hcount : session.refreshCount > MAX_REFRESH_COUNT
        · unfold rotateAfterGrace
          rw [hsess]
          simp [hfreq, hage, hcount]
        · rw [rotateAfterGrace_success_eq store now fresh rec d session
            hsess hfreq hage hcount hfp]
          constructor
          · unfold revokedTokenIds
            rw [List.filter_append]
            have hnew : List.filter (fun r => r.revoked)
                ([({
                  id := fresh.newTokenId
                  tokenHash := hashToken fresh.newSecret
                  userId := rec.userId
                  superuserId := rec.superuserId
                  tokenFamily := rec.tokenFamily
                  expiresAt :=
                    now + REFRESH_TOKEN_EXPIRY_DAYS * 24 * 60 * 60 * 1000
                  revoked := false
                  revokedAt := none
                  rotatedAt := none
                  newTokenId := none
                  deviceFingerprint := d.fingerprint
                  ipAddress := d.ipAddress
                  userAgent := d.userAgent
                  createdAt := now } : RefreshTokenRecord)]) = [] := rfl
            rw [hnew, List.append_nil]
            exact filter_map_of_pres _ _ _
              (fun a => by split <;> rfl)
              (fun a => by split <;> rfl) _
          · unfold revokedSessionIds
            exact filter_map_of_pres _ _ _
              (fun a => by split <;> rfl)
              (fun a => by split <;> rfl) _

/-! ## Facts about the creation-time ordering -/

theorem mem_insertByCreatedAt (x y : Session) (l : List Session) :
    y ∈ insertByCreatedAt x l ↔ y = x ∨ y ∈ l := by
  induction l with
  | nil => simp [insertByCreatedAt]
  | cons a t ih =>
    unfold insertByCreatedAt
    split
    · simp [List.mem_cons]
    · simp only [List.mem_cons, ih]
      tauto

theorem length_insertByCreatedAt (x : Session) (l : List Session) :
    (insertByCreatedAt x l).length = l.length + 1 := by
  induction l with
  | nil => rfl
  | cons a t ih =>
    unfold insertByCreatedAt
    split
    · simp
    · simp [ih]

theorem length_sortByCreatedAt (l : List Session) :
    (sortByCreatedAt l).length = l.length := by
  induction l with
  | nil => rfl
  | cons a t ih =>
    unfold sortByCreatedAt
    rw [length_insertByCreatedAt, ih, List.length_cons]

/-- The head of the creation-time sort is a member of minimal
`createdAt`. -/
theorem sortByCreatedAt_head_min (l : List Session) (h : Session)
    (t : List Session) (heq : sortByCreatedAt l = h :: t) :
    h ∈ l ∧ ∀ x ∈ l, h.createdAt ≤ x.createdAt := by
  induction l generalizing h t with
  | nil => exact absurd heq (by simp [sortByCreatedAt])
  | cons a l ih =>
    unfold sortByCreatedAt at heq
    cases hs : sortByCreatedAt l with
    | nil =>
      have hl : l = [] := by
        have := length_sortByCreatedAt l
        rw [hs] at this
        exact List.length_eq_zero.mp this.symm
      rw [hs] at heq
      unfold insertByCreatedAt at heq
      cases heq
      subst hl
      refine ⟨List.mem_cons_self a [], ?_⟩
      intro x hx
      rcases List.mem_cons.mp hx with rfl | hx
      · exact Nat.le_refl _
      · exact absurd hx (List.not_mem_nil x)
    | cons b t2 =>
      obtain ⟨hbmem, hbmin⟩ := ih b t2 hs
      rw [hs] at heq
      unfold insertByCreatedAt at heq
      by_cases hle : a.createdAt ≤ b.createdAt
      · rw [if_pos hle] at heq
        obtain ⟨rfl, -⟩ := List.cons.inj heq
        refine ⟨List.mem_cons_self a l, ?_⟩
        intro x hx
        rcases List.mem_cons.mp hx with rfl | hx
        · exact Nat.le_refl _
        · exact Nat.le_trans hle (hbmin x hx)
      · rw [if_neg hle] at heq
        obtain ⟨rfl, -⟩ := List.cons.inj heq
        refine ⟨List.mem_cons_of_mem a hbmem, ?_⟩
        intro x hx
        rcases List.mem_cons.mp hx with rfl | hx
        · exact Nat.le_of_not_le hle
        · exact hbmin x hx

/-! ## Claim theorems -/

/-- C6: for every rotation call presenting a secret whose record is
marked revoked, `rotateRefreshToken` never succeeds: it returns the
`TokenRevoked` error, marks every refresh-token record of the family
revoked, and deactivates the family's sessions (`revoked = true`,
`isActive = false`). -/
theorem rotate_revoked_record_revokes_family (store : TokenStore)
    (now : Millis) (fresh : RotateFresh) (old : Nat) (d : DeviceInfo)
    (rec : RefreshTokenRecord)
    (hfind : findByTokenHash store.refreshTokens (hashToken old) = some rec)
    (hrev : rec.revoked = true) :
    (rotateRefreshToken store now fresh old d).1 =
      .err "Token has been revoked" ∧
    (∀ p, (rotateRefreshToken store now fresh old d).1 ≠ .ok p) ∧
    (∀ r ∈ (rotateRefreshToken store now fresh old d).2.refreshTokens,
      r.tokenFamily = rec.tokenFamily → r.revoked = true) ∧
    (∀ s ∈ (rotateRefreshToken store now fresh old d).2.sessions,
      s.tokenFamily = rec.tokenFamily →
        s.revoked = true ∧ s.isActive = false) := by
  have heq : rotateRefreshToken store now fresh old d =
      (.err "Token has been revoked",
        { refreshTokens :=
            familyRevokeTokens rec.tokenFamily now store.refreshTokens
          sessions := familyRevokeSessions rec.tokenFamily store.sessions }) := by
    unfold rotateRefreshToken
    rw [hfind]
    simp [hrev]
  rw [heq]
  exact ⟨rfl, by simp, familyRevokeTokens_mem _ _ _,
    familyRevokeSessions_mem _ _⟩

/-- Witness for C6: a concrete revoked record presented for rotation. -/
theorem rotate_revoked_record_revokes_family_witness :
    (rotateRefreshToken
      ⟨[⟨2, 20, some 5, none, 1, 1000000000000, true, some 500, none,
          none, 7, 1, none, 1000⟩],
        [⟨100, some 5, none, 1, 7, 1, none, 0, 0, 0, true, false, 0⟩]⟩
      70000 ⟨99, 3, 30⟩ 20 ⟨7, 1, none⟩).1 =
      .err "Token has been revoked" :=
  (rotate_revoked_record_revokes_family
    ⟨[⟨2, 20, some 5, none, 1, 1000000000000, true, some 500, none,
        none, 7, 1, none, 1000⟩],
      [⟨100, some 5, none, 1, 7, 1, none, 0, 0, 0, true, false, 0⟩]⟩
    70000 ⟨99, 3, 30⟩ 20 ⟨7, 1, none⟩
    ⟨2, 20, some 5, none, 1, 1000000000000, true, some 500, none, none,
      7, 1, none, 1000⟩ rfl rfl).1

/-- C7: when the outbound SMS delivery fails or times out (the raced
delivery call does not succeed), `sendOTP` returns failure and stores
no OTP record: the table is returned exactly as it was. -/
theorem sendOTP_no_record_without_delivery (otps : List OtpRecord)
    (now : Millis) (freshOtp freshId phone : Nat) :
    (sendOTP otps now freshOtp freshId false phone).1.success = false ∧
    (sendOTP otps now freshOtp freshId false phone).2 = otps := by
  unfold sendOTP
  cases h : findRecentUnused otps phone (now - 60000) <;> simp

/-- C10: the grace-window branch of `rotateRefreshToken` performs no
writes at all: when the presented record was rotated less than 10
seconds ago and its successor exists and is not revoked, the returned
store is the input store — no insert, no record update, no session
update. -/
theorem rotate_grace_no_writes (store : TokenStore) (now : Millis)
    (fresh : RotateFresh) (old : Nat) (d : DeviceInfo)
    (rec succ : RefreshTokenRecord) (rt nid : Nat)
    (hfind : findByTokenHash store.refreshTokens (hashToken old) = some rec)
    (hrev : rec.revoked = false)
    (hexp : ¬ now > rec.expiresAt)
    (hrot : rec.rotatedAt = some rt)
    (hnid : rec.newTokenId = some nid)
    (hgrace : now - rt < 10000)
    (hsucc : findById store.refreshTokens nid = some succ)
    (hsrev : succ.revoked = false) :
    (rotateRefreshToken store now fresh old d).2 = store := by
  rw [rotate_grace_eq store now fresh old d rec succ rt nid hfind hrev
    hexp hrot hnid hgrace hsucc hsrev]

/-- Witness for C10: a concrete duplicate rotation inside the grace
window leaves the concrete store untouched. -/
theorem rotate_grace_no_writes_witness :
    (rotateRefreshToken
      ⟨[⟨1, 10, some 5, none, 1, 1000000000000, false, none, some 0,
          some 2, 7, 1, none, 0⟩,
        ⟨2, 20, some 5, none, 1, 1000000000000, false, none, none, none,
          7, 1, none, 1000⟩],
        [⟨100, some 5, none, 1, 7, 1, none, 1000, 0, 1, true, false, 0⟩]⟩
      5000 ⟨99, 3, 30⟩ 10 ⟨7, 1, none⟩).2 =
      ⟨[⟨1, 10, some 5, none, 1, 1000000000000, false, none, some 0,
          some 2, 7, 1, none, 0⟩,
        ⟨2, 20, some 5, none, 1, 1000000000000, false, none, none, none,
          7, 1, none, 1000⟩],
        [⟨100, some 5, none, 1, 7, 1, none, 1000, 0, 1, true, false, 0⟩]⟩ :=
  rotate_grace_no_writes
    ⟨[⟨1, 10, some 5, none, 1, 1000000000000, false, none, some 0,
        some 2, 7, 1, none, 0⟩,
      ⟨2, 20, some 5, none, 1, 1000000000000, false, none, none, none,
        7, 1, none, 1000⟩],
      [⟨100, some 5, none, 1, 7, 1, none, 1000, 0, 1, true, false, 0⟩]⟩
    5000 ⟨99, 3, 30⟩ 10 ⟨7, 1, none⟩
    ⟨1, 10, some 5, none, 1, 1000000000000, false, none, some 0, some 2,
      7, 1, none, 0⟩
    ⟨2, 20, some 5, none, 1, 1000000000000, false, none, none, none, 7,
      1, none, 1000⟩
    0 2 rfl rfl (by decide) rfl rfl (by decide) rfl rfl

/-- C5: `checkRateLimit` is a fixed-window counter.  With the
configured `(windowMs, maxRequests)` for the endpoint: when no record
lies in the active window a new one is created with count 1 and the
call is allowed; while `requestCount < maxRequests` the count is
incremented and the call is allowed; once `requestCount` has reached
`maxRequests` the call is denied with `remainingRequests = 0` and the
window's reset time, and the stored records are unchanged. -/
theorem checkRateLimit_fixed_window (records : List RateLimitRecord)
    (now : Millis) (freshId identifier : Nat) (endpoint : String)
    (config : RateLimitConfig)
    (hcfg : (RATE_LIMIT_CONFIGS endpoint).getD ⟨60 * 1000, 100⟩ = config) :
    (findActiveWindow records identifier endpoint (now - config.windowMs) =
        none →
      checkRateLimit records now freshId identifier endpoint =
        ({ allowed := true
           remainingRequests := some (config.maxRequests - 1)
           resetTime := some (now + config.windowMs) },
         records ++ [⟨freshId, identifier, endpoint, 1, now, now⟩])) ∧
    (∀ existing,
      findActiveWindow records identifier endpoint (now - config.windowMs) =
        some existing →
      existing.requestCount < config.maxRequests →
      checkRateLimit records now freshId identifier endpoint =
        ({ allowed := true
           remainingRequests :=
             some (config.maxRequests - existing.requestCount - 1)
           resetTime := some (existing.windowStart + config.windowMs) },
         records.map fun r =>
           if r.id == existing.id then
             { r with requestCount := existing.requestCount + 1,
                      lastRequest := now }
           else r)) ∧
    (∀ existing,
      findActiveWindow records identifier endpoint (now - config.windowMs) =
        some existing →
      config.maxRequests ≤ existing.requestCount →
      checkRateLimit records now freshId identifier endpoint =
        ({ allowed := false
           remainingRequests := some 0
           resetTime := some (existing.windowStart + config.windowMs) },
         records)) := by
  subst hcfg
  refine ⟨?_, ?_, ?_⟩
  · intro hnone
    simp only [checkRateLimit]
    rw [hnone]
  · intro existing hsome hlt
    simp only [checkRateLimit]
    rw [hsome]
    simp [Nat.not_le_of_lt hlt]
  · intro existing hsome hge
    simp only [checkRateLimit]
    rw [hsome]
    simp [hge]

/-- Witness for C5: on `appointment:create` (`maxRequests = 5`), a
record already at count 5 inside the window makes the 6th call denied
with `remainingRequests = 0`, reset at window start + 60 s, and the
stored list unchanged; and a caller with no record in the window gets a
fresh record with count 1. -/
theorem checkRateLimit_fixed_window_witness :
    (checkRateLimit [⟨1, 9, "appointment:create", 5, 1000, 5000⟩]
        30000 2 9 "appointment:create" =
      ({ allowed := false
         remainingRequests := some 0
         resetTime := some 61000 },
       [⟨1, 9, "appointment:create", 5, 1000, 5000⟩])) ∧
    (checkRateLimit [] 70000 3 9 "appointment:create" =
      ({ allowed := true
         remainingRequests := some 4
         resetTime := some 130000 },
       [⟨3, 9, "appointment:create", 1, 70000, 70000⟩])) := by
  constructor
  · exact (checkRateLimit_fixed_window
      [⟨1, 9, "appointment:create", 5, 1000, 5000⟩] 30000 2 9
      "appointment:create" ⟨60000, 5⟩ rfl).2.2
      ⟨1, 9, "appointment:create", 5, 1000, 5000⟩ rfl (by decide)
  · exact (checkRateLimit_fixed_window [] 70000 3 9
      "appointment:create" ⟨60000, 5⟩ rfl).1 rfl

/-- C8: `enforceDeviceLimit` lists the account's active sessions in
ascending creation order; below `maxDevices` it revokes nothing (the
store is unchanged), and at or above `maxDevices` it revokes exactly
the oldest (earliest-created) active session together with every
refresh token of that session's family. -/
theorem enforceDeviceLimit_oldest_eviction (store : TokenStore)
    (now : Millis) (userId superuserId : Option Nat) (maxDevices : Nat)
    (oldest : Session) :
    ((store.sessions.filter fun s =>
        accountSessionFilter userId superuserId s && s.isActive).length <
        maxDevices →
      enforceDeviceLimit store now userId superuserId maxDevices = store) ∧
    (¬ (userId = none ∧ superuserId = none) →
      maxDevices ≤ (store.sessions.filter fun s =>
        accountSessionFilter userId superuserId s && s.isActive).length →
      oldest ∈ store.sessions.filter (fun s =>
        accountSessionFilter userId superuserId s && s.isActive) →
      (∀ x ∈ store.sessions.filter (fun s =>
          accountSessionFilter userId superuserId s && s.isActive),
        x ≠ oldest → oldest.createdAt < x.createdAt) →
      enforceDeviceLimit store now userId superuserId maxDevices =
        { refreshTokens :=
            familyRevokeTokens oldest.tokenFamily now store.refreshTokens
          sessions := store.sessions.map fun s =>
            if s.id == oldest.id then
              { s with revoked := true, isActive := false }
            else s }) := by
  constructor
  · intro hlt
    simp only [enforceDeviceLimit]
    by_cases hacc : userId = none ∧ superuserId = none
    · rw [if_pos hacc]
    · rw [if_neg hacc]
      have hlen : (sortByCreatedAt (store.sessions.filter fun s =>
          accountSessionFilter userId superuserId s && s.isActive)).length <
          maxDevices := by
        rw [length_sortByCreatedAt]
        exact hlt
      rw [if_neg (Nat.not_le_of_lt hlen)]
  · intro hacc hge hmem hmin
    simp only [enforceDeviceLimit]
    rw [if_neg hacc]
    cases hs : sortByCreatedAt (store.sessions.filter fun s =>
        accountSessionFilter userId superuserId s && s.isActive) with
    | nil =>
      exfalso
      have hlen := length_sortByCreatedAt (store.sessions.filter fun s =>
        accountSessionFilter userId superuserId s && s.isActive)
      rw [hs] at hlen
      simp only [List.length_nil] at hlen
      have hpos := List.length_pos_of_mem hmem
      omega
    | cons h t =>
      obtain ⟨hmemh, hminh⟩ := sortByCreatedAt_head_min _ h t hs
      have hh : h = oldest := by
        by_contra hne
        exact absurd (hminh oldest hmem)
          (Nat.not_le_of_lt (hmin h hmemh hne))
      subst hh
      have hcond : (h :: t).length ≥ maxDevices := by
        rw [← hs, length_sortByCreatedAt]
        exact hge
      rw [if_pos hcond]

/-- Witness for C8: with `maxDevices = 5` and five active sessions the
earliest-created one (id 1, family 1) is evicted and its family's
tokens revoked; with only three active sessions nothing changes. -/
theorem enforceDeviceLimit_oldest_eviction_witness :
    (enforceDeviceLimit
      ⟨[⟨1, 10, some 5, none, 1, 999999999, false, none, none, none, 7,
          1, none, 0⟩,
        ⟨2, 20, some 5, none, 2, 999999999, false, none, none, none, 7,
          1, none, 0⟩],
        [⟨1, some 5, none, 1, 7, 1, none, 0, 10, 0, true, false, 10⟩,
         ⟨2, some 5, none, 2, 7, 1, none, 0, 20, 0, true, false, 20⟩,
         ⟨3, some 5, none, 3, 7, 1, none, 0, 30, 0, true, false, 30⟩,
         ⟨4, some 5, none, 4, 7, 1, none, 0, 40, 0, true, false, 40⟩,
         ⟨5, some 5, none, 5, 7, 1, none, 0, 50, 0, true, false, 50⟩]⟩
      99999 (some 5) none 5 =
      { refreshTokens := familyRevokeTokens 1 99999
          [⟨1, 10, some 5, none, 1, 999999999, false, none, none, none,
            7, 1, none, 0⟩,
           ⟨2, 20, some 5, none, 2, 999999999, false, none, none, none,
            7, 1, none, 0⟩]
        sessions :=
          [⟨1, some 5, none, 1, 7, 1, none, 0, 10, 0, true, false, 10⟩,
           ⟨2, some 5, none, 2, 7, 1, none, 0, 20, 0, true, false, 20⟩,
           ⟨3, some 5, none, 3, 7, 1, none, 0, 30, 0, true, false, 30⟩,
           ⟨4, some 5, none, 4, 7, 1, none, 0, 40, 0, true, false, 40⟩,
           ⟨5, some 5, none, 5, 7, 1, none, 0, 50, 0, true, false, 50⟩].map
            fun s =>
              if s.id == (1 : Nat) then
                { s with revoked := true, isActive := false }
              else s }) ∧
    (enforceDeviceLimit
      ⟨[], [⟨1, some 5, none, 1, 7, 1, none, 0, 10, 0, true, false, 10⟩,
            ⟨2, some 5, none, 2, 7, 1, none, 0, 20, 0, true, false, 20⟩,
            ⟨3, some 5, none, 3, 7, 1, none, 0, 30, 0, true, false, 30⟩]⟩
      99999 (some 5) none 5 =
      ⟨[], [⟨1, some 5, none, 1, 7, 1, none, 0, 10, 0, true, false, 10⟩,
            ⟨2, some 5, none, 2, 7, 1, none, 0, 20, 0, true, false, 20⟩,
            ⟨3, some 5, none, 3, 7, 1, none, 0, 30, 0, true, false, 30⟩]⟩) := by
  constructor
  · exact (enforceDeviceLimit_oldest_eviction
      ⟨[⟨1, 10, some 5, none, 1, 999999999, false, none, none, none, 7,
          1, none, 0⟩,
        ⟨2, 20, some 5, none, 2, 999999999, false, none, none, none, 7,
          1, none, 0⟩],
        [⟨1, some 5, none, 1, 7, 1, none, 0, 10, 0, true, false, 10⟩,
         ⟨2, some 5, none, 2, 7, 1, none, 0, 20, 0, true, false, 20⟩,
         ⟨3, some 5, none, 3, 7, 1, none, 0, 30, 0, true, false, 30⟩,
         ⟨4, some 5, none, 4, 7, 1, none, 0, 40, 0, true, false, 40⟩,
         ⟨5, some 5, none, 5, 7, 1, none, 0, 50, 0, true, false, 50⟩]⟩
      99999 (some 5) none 5
      ⟨1, some 5, none, 1, 7, 1, none, 0, 10, 0, true, false, 10⟩).2
      (by decide) (by decide) (by decide) (by decide)
  · exact (enforceDeviceLimit_oldest_eviction
      ⟨[], [⟨1, some 5, none, 1, 7, 1, none, 0, 10, 0, true, false, 10⟩,
            ⟨2, some 5, none, 2, 7, 1, none, 0, 20, 0, true, false, 20⟩,
            ⟨3, some 5, none, 3, 7, 1, none, 0, 30, 0, true, false, 30⟩]⟩
      99999 (some 5) none 5
      ⟨1, some 5, none, 1, 7, 1, none, 0, 10, 0, true, false, 10⟩).1
      (by decide)

/-- C1 (amended): when the presented record was already rotated
(`rotatedAt` and `newTokenId` set) and is neither revoked nor expired:
within the 10-second grace window, provided the successor exists and is
not revoked, the call returns the caller's own refresh secret together
with a fresh access token bound to the successor record's identity and
creates nothing; after the grace window the family is NOT revoked —
with a matching fingerprint the call falls through to the normal
rotation path, which never adds a revocation to any token or
session. -/
theorem rotate_grace_idempotent_postgrace_no_revocation
    (store : TokenStore) (now : Millis) (fresh : RotateFresh) (old : Nat)
    (d : DeviceInfo) (rec : RefreshTokenRecord) (rt nid : Nat)
    (hfind : findByTokenHash store.refreshTokens (hashToken old) = some rec)
    (hrev : rec.revoked = false)
    (hexp : ¬ now > rec.expiresAt)
    (hrot : rec.rotatedAt = some rt)
    (hnid : rec.newTokenId = some nid) :
    (∀ succ, now - rt < 10000 →
      findById store.refreshTokens nid = some succ →
      succ.revoked = false →
      rotateRefreshToken store now fresh old d =
        (.ok {
            accessToken := {
              userId := succ.userId
              superuserId := succ.superuserId
              type := if succ.superuserId.isSome then
                  AccountType.superuser else AccountType.user
              jti := fresh.jti
              sessionId := none
              iat := now
              exp := now + ACCESS_TOKEN_EXPIRY_MS }
            refreshToken := old
            expiresIn := 15 * 60 },
          store)) ∧
    (¬ now - rt < 10000 → rec.deviceFingerprint = d.fingerprint →
      revokedTokenIds (rotateRefreshToken store now fresh old d).2 =
        revokedTokenIds store ∧
      revokedSessionIds (rotateRefreshToken store now fresh old d).2 =
        revokedSessionIds store) := by
  constructor
  · intro succ hgrace hsucc hsrev
    exact rotate_grace_eq store now fresh old d rec succ rt nid hfind
      hrev hexp hrot hnid hgrace hsucc hsrev
  · intro hlate hfp
    rw [rotate_fallthrough_postgrace store now fresh old d rec rt nid
      hfind hrev hexp hrot hnid hlate]
    exact rotateAfterGrace_preserves_revoked store now fresh rec d hfp

/-- Counterexample to C1 as stated: the secret of a record rotated 20
seconds ago (past the grace window) is presented while its successor is
alive; the claim requires the whole family to be revoked, but the call
merely fails the frequency check, the store is returned unchanged, and
both family records are still unrevoked. -/
theorem rotate_postgrace_families_not_revoked_counterexample :
    (rotateRefreshToken
      ⟨[⟨1, 10, some 5, none, 1, 1000000000000, false, none, some 0,
          some 2, 7, 1, none, 0⟩,
        ⟨2, 20, some 5, none, 1, 1000000000000, false, none, none, none,
          7, 1, none, 1000⟩],
        [⟨100, some 5, none, 1, 7, 1, none, 0, 0, 1, true, false, 0⟩]⟩
      20000 ⟨99, 3, 30⟩ 10 ⟨7, 1, none⟩).1 =
      .err "Token refreshed too frequently" ∧
    (rotateRefreshToken
      ⟨[⟨1, 10, some 5, none, 1, 1000000000000, false, none, some 0,
          some 2, 7, 1, none, 0⟩,
        ⟨2, 20, some 5, none, 1, 1000000000000, false, none, none, none,
          7, 1, none, 1000⟩],
        [⟨100, some 5, none, 1, 7, 1, none, 0, 0, 1, true, false, 0⟩]⟩
      20000 ⟨99, 3, 30⟩ 10 ⟨7, 1, none⟩).2 =
      ⟨[⟨1, 10, some 5, none, 1, 1000000000000, false, none, some 0,
          some 2, 7, 1, none, 0⟩,
        ⟨2, 20, some 5, none, 1, 1000000000000, false, none, none, none,
          7, 1, none, 1000⟩],
        [⟨100, some 5, none, 1, 7, 1, none, 0, 0, 1, true, false, 0⟩]⟩ := by
  decide

/-- Witness for C1 (amended): a concrete duplicate rotation 5 seconds
after the original is answered with the same secret and the successor's
identity. -/
theorem rotate_grace_idempotent_postgrace_no_revocation_witness :
    rotateRefreshToken
      ⟨[⟨1, 10, some 5, none, 1, 1000000000000, false, none, some 0,
          some 2, 7, 1, none, 0⟩,
        ⟨2, 20, some 5, none, 1, 1000000000000, false, none, none, none,
          7, 1, none, 1000⟩],
        [⟨100, some 5, none, 1, 7, 1, none, 1000, 0, 1, true, false, 0⟩]⟩
      5000 ⟨99, 3, 30⟩ 10 ⟨7, 1, none⟩ =
      (.ok {
          accessToken := {
            userId := some 5
            superuserId := none
            type := AccountType.user
            jti := 99
            sessionId := none
            iat := 5000
            exp := 5000 + ACCESS_TOKEN_EXPIRY_MS }
          refreshToken := 10
          expiresIn := 15 * 60 },
        ⟨[⟨1, 10, some 5, none, 1, 1000000000000, false, none, some 0,
            some 2, 7, 1, none, 0⟩,
          ⟨2, 20, some 5, none, 1, 1000000000000, false, none, none,
            none, 7, 1, none, 1000⟩],
          [⟨100, some 5, none, 1, 7, 1, none, 1000, 0, 1, true, false,
            0⟩]⟩) :=
  (rotate_grace_idempotent_postgrace_no_revocation
    ⟨[⟨1, 10, some 5, none, 1, 1000000000000, false, none, some 0,
        some 2, 7, 1, none, 0⟩,
      ⟨2, 20, some 5, none, 1, 1000000000000, false, none, none, none,
        7, 1, none, 1000⟩],
      [⟨100, some 5, none, 1, 7, 1, none, 1000, 0, 1, true, false, 0⟩]⟩
    5000 ⟨99, 3, 30⟩ 10 ⟨7, 1, none⟩
    ⟨1, 10, some 5, none, 1, 1000000000000, false, none, some 0, some 2,
      7, 1, none, 0⟩
    0 2 rfl rfl (by decide) rfl rfl).1
    ⟨2, 20, some 5, none, 1, 1000000000000, false, none, none, none, 7,
      1, none, 1000⟩
    (by decide) rfl rfl

/-- C2 (amended): rotation preserves single-active-record uniqueness
when the presented record is the family's unique active (non-revoked,
non-rotated) record: after a successful rotation the family again has
exactly one active record, the fresh successor.  (Rotation of an
already-rotated record past the grace window is NOT covered: it can
create a second active record and rebind the predecessor's successor
link, as the counterexample shows.) -/
theorem rotate_unique_active_preserved (store : TokenStore)
    (now : Millis) (fresh : RotateFresh) (old : Nat) (d : DeviceInfo)
    (rec : RefreshTokenRecord) (session : Session)
    (hfind : findByTokenHash store.refreshTokens (hashToken old) = some rec)
    (hexp : ¬ now > rec.expiresAt)
    (hactive : store.refreshTokens.filter (activeInFamily rec.tokenFamily) =
      [rec])
    (hsess : findSessionByFamily store.sessions rec.tokenFamily =
      some session)
    (hfreq : ¬ now - session.lastActivity < MIN_REFRESH_INTERVAL)
    (hage : ¬ now - session.sessionStarted >
      REFRESH_TOKEN_EXPIRY_DAYS * 24 * 60 * 60 * 1000)
    (hcount : ¬ session.refreshCount > MAX_REFRESH_COUNT)
    (hfp : rec.deviceFingerprint = d.fingerprint) :
    ((rotateRefreshToken store now fresh old d).2.refreshTokens.filter
      (activeInFamily rec.tokenFamily)).length = 1 := by
  have hrecmem : rec ∈ store.refreshTokens.filter
      (activeInFamily rec.tokenFamily) := by
    rw [hactive]
    exact List.mem_singleton.mpr rfl
  have hact := (List.mem_filter.mp hrecmem).2
  have hparts : rec.revoked = false ∧ rec.rotatedAt = none := by
    unfold activeInFamily isActiveRecord at hact
    simp only [Bool.and_eq_true, Bool.not_eq_true', beq_iff_eq] at hact
    exact hact.2
  rw [rotate_fallthrough_unrotated store now fresh old d rec hfind
      hparts.1 hexp hparts.2,
    rotateAfterGrace_success_eq store now fresh rec d session hsess
      hfreq hage hcount hfp]
  rw [List.filter_append]
  have hmapnil : (store.refreshTokens.map fun r =>
      if r.id == rec.id then
        { r with rotatedAt := some now,
                 newTokenId := some fresh.newTokenId }
      else r).filter (activeInFamily rec.tokenFamily) = [] := by
    apply filter_map_eq_nil
    intro a ha
    by_cases hid : (a.id == rec.id) = true
    · rw [if_pos hid]
      simp [activeInFamily, isActiveRecord]
    · rw [if_neg hid]
      by_cases hacta : activeInFamily rec.tokenFamily a = true
      · exfalso
        have hmem2 : a ∈ store.refreshTokens.filter
            (activeInFamily rec.tokenFamily) :=
          List.mem_filter.mpr ⟨ha, hacta⟩
        rw [hactive] at hmem2
        have heq : a = rec := List.mem_singleton.mp hmem2
        subst heq
        exact hid (beq_self_eq_true a.id)
      · simp only [Bool.not_eq_true] at hacta
        exact hacta
  rw [hmapnil]
  simp [activeInFamily, isActiveRecord]

/-- Counterexample to C2 as stated: family 1 holds record 1 (rotated,
successor 2) and record 2 (active), satisfying the invariant.  Rotating
record 1's secret again 70 seconds later succeeds, after which the
family has TWO active records (2 and the fresh 3) and record 1's
successor link has been rebound from 2 to 3 — a second successor for
the same record, i.e. a branching chain. -/
theorem rotate_rerotation_breaks_invariant_counterexample :
    (([⟨1, 10, some 5, none, 1, 1000000000000, false, none, some 0,
        some 2, 7, 1, none, 0⟩,
       ⟨2, 20, some 5, none, 1, 1000000000000, false, none, none, none,
        7, 1, none, 1000⟩] :
        List RefreshTokenRecord).filter (activeInFamily 1)).length = 1 ∧
    ((rotateRefreshToken
      ⟨[⟨1, 10, some 5, none, 1, 1000000000000, false, none, some 0,
          some 2, 7, 1, none, 0⟩,
        ⟨2, 20, some 5, none, 1, 1000000000000, false, none, none, none,
          7, 1, none, 1000⟩],
        [⟨100, some 5, none, 1, 7, 1, none, 0, 0, 1, true, false, 0⟩]⟩
      70000 ⟨99, 3, 30⟩ 10 ⟨7, 1, none⟩).2.refreshTokens.filter
        (activeInFamily 1)).length = 2 ∧
    ((rotateRefreshToken
      ⟨[⟨1, 10, some 5, none, 1, 1000000000000, false, none, some 0,
          some 2, 7, 1, none, 0⟩,
        ⟨2, 20, some 5, none, 1, 1000000000000, false, none, none, none,
          7, 1, none, 1000⟩],
        [⟨100, some 5, none, 1, 7, 1, none, 0, 0, 1, true, false, 0⟩]⟩
      70000 ⟨99, 3, 30⟩ 10 ⟨7, 1, none⟩).2.refreshTokens.map
        fun r => (r.id, r.newTokenId)) =
      [(1, some 3), (2, none), (3, none)] := by
  decide

/-- Witness for C2 (amended): rotating the unique active record of a
concrete one-record family leaves exactly one active record. -/
theorem rotate_unique_active_preserved_witness :
    ((rotateRefreshToken
      ⟨[⟨2, 20, some 5, none, 1, 1000000000000, false, none, none, none,
          7, 1, none, 1000⟩],
        [⟨100, some 5, none, 1, 7, 1, none, 0, 0, 1, true, false, 0⟩]⟩
      70000 ⟨99, 3, 30⟩ 20 ⟨7, 1, none⟩).2.refreshTokens.filter
        (activeInFamily 1)).length = 1 :=
  rotate_unique_active_preserved
    ⟨[⟨2, 20, some 5, none, 1, 1000000000000, false, none, none, none,
        7, 1, none, 1000⟩],
      [⟨100, some 5, none, 1, 7, 1, none, 0, 0, 1, true, false, 0⟩]⟩
    70000 ⟨99, 3, 30⟩ 20 ⟨7, 1, none⟩
    ⟨2, 20, some 5, none, 1, 1000000000000, false, none, none, none, 7,
      1, none, 1000⟩
    ⟨100, some 5, none, 1, 7, 1, none, 0, 0, 1, true, false, 0⟩
    rfl (by decide) (by decide) rfl (by decide) (by decide) (by decide)
    rfl

/-- C3 (amended): when all earlier checks pass and the presented
record's fingerprint differs from the caller's, `rotateRefreshToken`
revokes every refresh-token record of the family and returns
`DeviceMismatch` — but it does NOT cascade to the family's Session: the
sessions table is returned exactly as it was. -/
theorem rotate_mismatch_revokes_tokens_only (store : TokenStore)
    (now : Millis) (fresh : RotateFresh) (old : Nat) (d : DeviceInfo)
    (rec : RefreshTokenRecord) (session : Session)
    (hfind : findByTokenHash store.refreshTokens (hashToken old) = some rec)
    (hrev : rec.revoked = false)
    (hexp : ¬ now > rec.expiresAt)
    (hrot : rec.rotatedAt = none)
    (hsess : findSessionByFamily store.sessions rec.tokenFamily =
      some session)
    (hfreq : ¬ now - session.lastActivity < MIN_REFRESH_INTERVAL)
    (hage : ¬ now - session.sessionStarted >
      REFRESH_TOKEN_EXPIRY_DAYS * 24 * 60 * 60 * 1000)
    (hcount : ¬ session.refreshCount > MAX_REFRESH_COUNT)
    (hfp : rec.deviceFingerprint ≠ d.fingerprint) :
    rotateRefreshToken store now fresh old d =
      (.err "Device fingerprint mismatch",
        { refreshTokens :=
            familyRevokeTokens rec.tokenFamily now store.refreshTokens
          sessions := store.sessions }) ∧
    (∀ r ∈ familyRevokeTokens rec.tokenFamily now store.refreshTokens,
      r.tokenFamily = rec.tokenFamily → r.revoked = true) := by
  refine ⟨?_, familyRevokeTokens_mem _ _ _⟩
  rw [rotate_fallthrough_unrotated store now fresh old d rec hfind hrev
      hexp hrot,
    rotateAfterGrace_mismatch_eq store now fresh rec d session hsess
      hfreq hage hcount hfp]

/-- Counterexample to C3 as stated: a concrete fingerprint mismatch
(record fingerprint 7, caller fingerprint 8) with every other check
passing revokes the family's token records and returns the mismatch
error, yet the family's session row is left active and unrevoked — no
cascade to the Session occurs. -/
theorem rotate_mismatch_session_not_revoked_counterexample :
    (rotateRefreshToken
      ⟨[⟨2, 20, some 5, none, 1, 1000000000000, false, none, none, none,
          7, 1, none, 1000⟩],
        [⟨100, some 5, none, 1, 7, 1, none, 0, 0, 1, true, false, 0⟩]⟩
      70000 ⟨99, 3, 30⟩ 20 ⟨8, 1, none⟩).1 =
      .err "Device fingerprint mismatch" ∧
    ((rotateRefreshToken
      ⟨[⟨2, 20, some 5, none, 1, 1000000000000, false, none, none, none,
          7, 1, none, 1000⟩],
        [⟨100, some 5, none, 1, 7, 1, none, 0, 0, 1, true, false, 0⟩]⟩
      70000 ⟨99, 3, 30⟩ 20 ⟨8, 1, none⟩).2.refreshTokens.map
        fun r => (r.id, r.revoked)) = [(2, true)] ∧
    (rotateRefreshToken
      ⟨[⟨2, 20, some 5, none, 1, 1000000000000, false, none, none, none,
          7, 1, none, 1000⟩],
        [⟨100, some 5, none, 1, 7, 1, none, 0, 0, 1, true, false, 0⟩]⟩
      70000 ⟨99, 3, 30⟩ 20 ⟨8, 1, none⟩).2.sessions =
      [⟨100, some 5, none, 1, 7, 1, none, 0, 0, 1, true, false, 0⟩] := by
  decide

/-- Witness for C3 (amended): the concrete mismatch call of the
counterexample satisfies the amended description. -/
theorem rotate_mismatch_revokes_tokens_only_witness :
    rotateRefreshToken
      ⟨[⟨2, 20, some 5, none, 1, 1000000000000, false, none, none, none,
          7, 1, none, 1000⟩],
        [⟨100, some 5, none, 1, 7, 1, none, 100, 50, 1, true, false, 0⟩]⟩
      70000 ⟨99, 3, 30⟩ 20 ⟨8, 1, none⟩ =
      (.err "Device fingerprint mismatch",
        { refreshTokens := familyRevokeTokens 1 70000
            [⟨2, 20, some 5, none, 1, 1000000000000, false, none, none,
              none, 7, 1, none, 1000⟩]
          sessions :=
            [⟨100, some 5, none, 1, 7, 1, none, 100, 50, 1, true, false,
              0⟩] }) :=
  (rotate_mismatch_revokes_tokens_only
    ⟨[⟨2, 20, some 5, none, 1, 1000000000000, false, none, none, none,
        7, 1, none, 1000⟩],
      [⟨100, some 5, none, 1, 7, 1, none, 100, 50, 1, true, false, 0⟩]⟩
    70000 ⟨99, 3, 30⟩ 20 ⟨8, 1, none⟩
    ⟨2, 20, some 5, none, 1, 1000000000000, false, none, none, none, 7,
      1, none, 1000⟩
    ⟨100, some 5, none, 1, 7, 1, none, 100, 50, 1, true, false, 0⟩
    rfl rfl (by decide) rfl rfl (by decide) (by decide) (by decide)
    (by decide)).1

/-- Every pair the post-grace path returns carries a token with no
`sessionId` claim, the drawn `jti`, and a 15-minute expiry. -/
theorem rotateAfterGrace_ok_claims (store : TokenStore) (now : Millis)
    (fresh : RotateFresh) (rec : RefreshTokenRecord) (d : DeviceInfo)
    (pair : TokenPair) (st2 : TokenStore)
    (h : rotateAfterGrace store now fresh rec d = (.ok pair, st2)) :
    pair.accessToken.sessionId = none ∧
    pair.accessToken.jti = fresh.jti ∧
    pair.accessToken.iat = now ∧
    pair.accessToken.exp = now + ACCESS_TOKEN_EXPIRY_MS ∧
    pair.expiresIn = 15 * 60 := by
  unfold rotateAfterGrace at h
  repeat' split at h
  all_goals try simp only [Prod.mk.injEq, RotateOutcome.ok.injEq] at h
  all_goals
    first
    | (obtain ⟨h1, -⟩ := h; subst h1; exact ⟨rfl, rfl, rfl, rfl, rfl⟩)
    | simp at h

/-- C9 (amended): the access token of `generateTokenPair` embeds the
account reference, the account kind, the fresh `jti`, the session id,
and issued-at/expiry claims with expiry 15 minutes after issuance; the
access tokens minted by `rotateRefreshToken` (grace or success branch)
embed the account data, `jti` and 15-minute issued-at/expiry claims but
carry NO session id. -/
theorem access_token_claims_shape (storeI storeR : TokenStore)
    (now : Millis) (freshI : IssueFresh) (freshR : RotateFresh)
    (uid sid : Option Nat) (d : DeviceInfo) (fam : Option Nat)
    (old : Nat) :
    ((generateTokenPair storeI now freshI uid sid d fam).1.accessToken =
      { userId := uid
        superuserId := sid
        type := if sid.isSome then AccountType.superuser
          else AccountType.user
        jti := freshI.jti
        sessionId := some freshI.sessionId
        iat := now
        exp := now + ACCESS_TOKEN_EXPIRY_MS } ∧
     (generateTokenPair storeI now freshI uid sid d fam).1.expiresIn =
       15 * 60) ∧
    (∀ pair st2,
      rotateRefreshToken storeR now freshR old d = (.ok pair, st2) →
      pair.accessToken.sessionId = none ∧
      pair.accessToken.jti = freshR.jti ∧
      pair.accessToken.iat = now ∧
      pair.accessToken.exp = now + ACCESS_TOKEN_EXPIRY_MS ∧
      pair.expiresIn = 15 * 60) := by
  refine ⟨⟨rfl, rfl⟩, ?_⟩
  intro pair st2 h
  unfold rotateRefreshToken at h
  repeat' split at h
  all_goals try simp only [Prod.mk.injEq, RotateOutcome.ok.injEq] at h
  all_goals
    first
    | exact rotateAfterGrace_ok_claims _ _ _ _ _ _ _ h
    | (obtain ⟨h1, -⟩ := h; subst h1; exact ⟨rfl, rfl, rfl, rfl, rfl⟩)
    | simp at h

/-- Counterexample to C9 as stated: a concrete successful rotation
returns an access token whose claims carry NO session id (`sessionId =
none`), although the claim requires every issued access token to embed
one. -/
theorem rotation_token_lacks_session_id_counterexample :
    (rotateRefreshToken
      ⟨[⟨2, 20, some 5, none, 1, 1000000000000, false, none, none, none,
          7, 1, none, 1000⟩],
        [⟨100, some 5, none, 1, 7, 1, none, 0, 0, 1, true, false, 0⟩]⟩
      70000 ⟨99, 3, 30⟩ 20 ⟨7, 1, none⟩).1 =
      RotateOutcome.ok
        ⟨⟨some 5, none, AccountType.user, 99, none, 70000, 970000⟩, 30,
          900⟩ ∧
    ((⟨⟨some 5, none, AccountType.user, 99, none, 70000, 970000⟩, 30,
      900⟩ : TokenPair)).accessToken.sessionId = none := by
  decide

/-- Witness for C9 (amended): the theorem applied to a concrete issue
call and a concrete successful rotation. -/
theorem access_token_claims_shape_witness :
    (generateTokenPair ⟨[], []⟩ 4000 ⟨11, 12, 13, 14, 15⟩ (some 5) none
      ⟨7, 1, none⟩ none).1.accessToken =
      { userId := some 5
        superuserId := none
        type := AccountType.user
        jti := 13
        sessionId := some 12
        iat := 4000
        exp := 4000 + ACCESS_TOKEN_EXPIRY_MS } ∧
    ((rotateRefreshToken
      ⟨[⟨2, 20, some 5, none, 1, 1000000000000, false, none, none, none,
          7, 1, none, 1000⟩],
        [⟨100, some 5, none, 1, 7, 1, none, 0, 0, 1, true, false, 0⟩]⟩
      70000 ⟨99, 3, 30⟩ 20 ⟨7, 1, none⟩).1 =
        RotateOutcome.ok
          ⟨⟨some 5, none, AccountType.user, 99, none, 70000, 970000⟩,
            30, 900⟩ →
      (⟨⟨some 5, none, AccountType.user, 99, none, 70000, 970000⟩, 30,
        900⟩ : TokenPair).accessToken.sessionId = none) := by
  constructor
  · exact (access_token_claims_shape ⟨[], []⟩ ⟨[], []⟩ 4000
      ⟨11, 12, 13, 14, 15⟩ ⟨99, 3, 30⟩ (some 5) none ⟨7, 1, none⟩ none
      20).1.1
  · intro hok
    exact ((access_token_claims_shape ⟨[], []⟩
      ⟨[⟨2, 20, some 5, none, 1, 1000000000000, false, none, none, none,
          7, 1, none, 1000⟩],
        [⟨100, some 5, none, 1, 7, 1, none, 0, 0, 1, true, false, 0⟩]⟩
      70000 ⟨11, 12, 13, 14, 15⟩ ⟨99, 3, 30⟩ (some 5) none ⟨7, 1, none⟩
      none 20).2
      ⟨⟨some 5, none, AccountType.user, 99, none, 70000, 970000⟩, 30,
        900⟩
      (rotateRefreshToken
        ⟨[⟨2, 20, some 5, none, 1, 1000000000000, false, none, none,
            none, 7, 1, none, 1000⟩],
          [⟨100, some 5, none, 1, 7, 1, none, 0, 0, 1, true, false,
            0⟩]⟩
        70000 ⟨99, 3, 30⟩ 20 ⟨7, 1, none⟩).2
      (by decide)).1

/-- Replays a sequence of `(now, code)` verification attempts for one
phone and fingerprint, threading the OTP table through the calls. -/
def runVerifySeq (phone fingerprint : Nat) (otps : List OtpRecord) :
    List (Millis × Nat) → List OtpRecord
  | [] => otps
  | a :: rest =>
    runVerifySeq phone fingerprint
      (verifyOTP otps a.1 phone a.2 fingerprint).2 rest

/-- C4: evaluation of the code at the claim's failing input.  Phone
15551234 holds one unused OTP record (code digest 42, `attemptCount`
0).  Five verification attempts with wrong codes all fail yet leave the
stored record — including `attemptCount` — completely unchanged,
because a wrong code never matches the `findFirst` digest lookup and
the `attempt_count` increment lives only in the exception handler; the
6th call with the correct code then succeeds instead of returning
`TooManyAttempts`. -/
theorem verifyOTP_attempt_ceiling_never_reached :
    (verifyOTP [⟨1, 15551234, 42, 600000, false, none, none, 0, 0⟩]
        1000 15551234 31 77).1 =
      ⟨false, "Invalid or already used OTP", none⟩ ∧
    runVerifySeq 15551234 77
      [⟨1, 15551234, 42, 600000, false, none, none, 0, 0⟩]
      [(1000, 31), (2000, 32), (3000, 33), (4000, 34), (5000, 35)] =
      [⟨1, 15551234, 42, 600000, false, none, none, 0, 0⟩] ∧
    (verifyOTP [⟨1, 15551234, 42, 600000, false, none, none, 0, 0⟩]
        6000 15551234 42 77).1 =
      ⟨true, "OTP verified successfully", some 15551234⟩ := by
  decide
